import Mathlib

/-!
Verification of the request-dispatch pipeline of the multi-backend
image-generation gateway: backend registry, health monitor, load balancer,
bounded request queue and dynamic batcher.  Each Rust component is embedded
shallowly as executable Lean definitions; machine counters (`u32`, `u64`,
`usize`) are modelled as `Nat` (no claim exercises wrap-around), the `i32`
weighted-round-robin weight register as `Int`, and fallible operations as
`Except`.  Time stamps (`std::time::Instant`) are modelled as abstract `Nat`
ticks supplied by the caller.
-/

set_option autoImplicit false

/- ===================== Definitions ===================== -/

/-- Application-wide error type, from `src/error.rs` (`enum AppError`).
Payloads of the wrapped foreign errors (`config::ConfigError`,
`std::io::Error`, `serde_json::Error`, `reqwest::Error`, `tonic::Status`)
are modelled as their display strings. -/
inductive AppError where
  | Config (msg : String)
  | Io (msg : String)
  | Json (msg : String)
  | HttpClient (msg : String)
  | Grpc (msg : String)
  | BackendNotFound (name : String)
  | NoHealthyBackends (scope : String)
  | AuthenticationFailed (msg : String)
  | RateLimitExceeded
  | InvalidRequest (msg : String)
  | BackendError (msg : String)
  | Timeout (msg : String)
  | Internal (msg : String)
deriving DecidableEq, Repr

/-- `pub type Result<T> = std::result::Result<T, AppError>` from `src/error.rs`. -/
abbrev AppResult (α : Type) : Type := Except AppError α

/-- Modelled from the spec: the user-visible error taxonomy of spec section 7.
The table lists the kinds `BackendNotFound`, `NoHealthyBackends`,
`InvalidRequest`, `Timeout`, `BackendError`, `QueueFull`, `TransportFailed`
and `Internal` as distinct kinds.  This enumeration exists only to compare
the spec's taxonomy with the error values the code actually produces
(`enum AppError` in `src/error.rs` has no `QueueFull` or `TransportFailed`
variant). -/
inductive SpecErrorKind where
  | BackendNotFound
  | NoHealthyBackends
  | InvalidRequest
  | Timeout
  | BackendError
  | QueueFull
  | TransportFailed
  | Internal
  | OtherKind
deriving DecidableEq, Repr

/-- Modelled from the spec: map each code-level error onto the spec taxonomy
of section 7, matching kinds by name.  No code-level error maps to
`QueueFull` or `TransportFailed`, because `enum AppError` has no such
variants. -/
def spec_error_kind : AppError → SpecErrorKind
  | .BackendNotFound _ => .BackendNotFound
  | .NoHealthyBackends _ => .NoHealthyBackends
  | .InvalidRequest _ => .InvalidRequest
  | .Timeout _ => .Timeout
  | .BackendError _ => .BackendError
  | .Internal _ => .Internal
  | _ => .OtherKind

/-- Kind of the overall outcome of a fallible call: `none` on success,
the spec-taxonomy kind of the error otherwise. -/
def result_kind {α : Type} : AppResult α → Option SpecErrorKind
  | .ok _ => none
  | .error e => some (spec_error_kind e)

/-- Health status of a backend, from `src/gateway/health_check.rs`
(`struct HealthStatus`).  `last_check : Instant` is modelled as a `Nat` tick. -/
structure HealthStatus where
  healthy : Bool
  last_check : Nat
  consecutive_failures : Nat
  consecutive_successes : Nat
deriving DecidableEq, Repr

/-- `impl Default for HealthStatus`: healthy until proven otherwise,
counters at zero. -/
def HealthStatus.default : HealthStatus :=
  { healthy := true, last_check := 0, consecutive_failures := 0,
    consecutive_successes := 0 }

/-- `failure_threshold` installed by `HealthCheckManager::new`. -/
def failure_threshold : Nat := 3

/-- `recovery_threshold` installed by `HealthCheckManager::new`. -/
def recovery_threshold : Nat := 2

/-- One per-backend update performed by the probe loop spawned in
`HealthCheckManager::start` (`src/gateway/health_check.rs`), given the
boolean probe result `is_healthy` of `backend.health_check()` and the
current tick `now`. -/
def probe_update (ft rt : Nat) (st : HealthStatus) (is_healthy : Bool)
    (now : Nat) : HealthStatus :=
  let st := { st with last_check := now }
  if is_healthy then
    let st := { st with consecutive_failures := 0,
                        consecutive_successes := st.consecutive_successes + 1 }
    if !st.healthy && rt ≤ st.consecutive_successes then
      { st with healthy := true }
    else st
  else
    let st := { st with consecutive_successes := 0,
                        consecutive_failures := st.consecutive_failures + 1 }
    if st.healthy && ft ≤ st.consecutive_failures then
      { st with healthy := false }
    else st

/-- The status update performed by `HealthCheckManager::check_now`
(`src/gateway/health_check.rs`, the synchronous force-probe): the stored
`healthy` flag is overwritten with the probe result and the consecutive
counters are fed exactly as by the periodic loop. -/
def check_now_update (st : HealthStatus) (is_healthy : Bool) (now : Nat) :
    HealthStatus :=
  let st := { st with last_check := now, healthy := is_healthy }
  if is_healthy then
    { st with consecutive_failures := 0,
              consecutive_successes := st.consecutive_successes + 1 }
  else
    { st with consecutive_successes := 0,
              consecutive_failures := st.consecutive_failures + 1 }

/-- Two health statuses agree on everything except possibly the
`last_check` timestamp. -/
def same_modulo_last_check (s t : HealthStatus) : Prop :=
  s.healthy = t.healthy ∧
  s.consecutive_failures = t.consecutive_failures ∧
  s.consecutive_successes = t.consecutive_successes

instance (s t : HealthStatus) : Decidable (same_modulo_last_check s t) := by
  unfold same_modulo_last_check; infer_instance

/-- Backend endpoint with rolling health state, from `src/backend/traits.rs`
(`struct BackendEndpoint`).  `last_check : Option Instant` is modelled as an
`Option Nat` tick. -/
structure BackendEndpoint where
  url : String
  healthy : Bool
  last_check : Option Nat
  consecutive_failures : Nat
deriving DecidableEq, Repr

/-- `BackendEndpoint::new`: assume healthy until proven otherwise. -/
def BackendEndpoint.new (url : String) : BackendEndpoint :=
  { url := url, healthy := true, last_check := none, consecutive_failures := 0 }

/-- `BackendEndpoint::mark_healthy` (`src/backend/traits.rs`). -/
def mark_healthy (e : BackendEndpoint) (now : Nat) : BackendEndpoint :=
  { e with healthy := true, last_check := some now, consecutive_failures := 0 }

/-- `BackendEndpoint::mark_unhealthy` (`src/backend/traits.rs`): one more
consecutive failure; the flag flips once three failures accumulate. -/
def mark_unhealthy (e : BackendEndpoint) (now : Nat) : BackendEndpoint :=
  let e := { e with consecutive_failures := e.consecutive_failures + 1 }
  let e := if 3 ≤ e.consecutive_failures then { e with healthy := false } else e
  { e with last_check := some now }

/-- Request to generate images, from `src/backend/traits.rs`
(`struct GenerateRequest`). -/
structure GenerateRequest where
  prompt : String
  negative_prompt : Option String
  n : Nat
  width : Nat
  height : Nat
  model : Option String
  seed : Option Int
  guidance_scale : Option Float
  num_inference_steps : Option Nat
  response_format : String

/-- Generated image data, from `src/backend/traits.rs` (`struct GeneratedImage`). -/
structure GeneratedImage where
  b64_json : Option String
  url : Option String
  revised_prompt : Option String
  seed : Option Int
deriving DecidableEq, Repr

/-- Response from image generation, from `src/backend/traits.rs`
(`struct GenerateResponse`). -/
structure GenerateResponse where
  images : List GeneratedImage
  model : Option String
deriving DecidableEq, Repr

/-- Configuration for the request queue, from `src/queue/request_queue.rs`
(`struct QueueConfig`). -/
structure QueueConfig where
  max_queue_size : Nat
  max_concurrent : Nat
  timeout_ms : Nat
deriving DecidableEq, Repr

/-- `impl Default for QueueConfig`. -/
def QueueConfig.default : QueueConfig :=
  { max_queue_size := 1000, max_concurrent := 10, timeout_ms := 120000 }

instance {ε α : Type} [DecidableEq ε] [DecidableEq α] :
    DecidableEq (Except ε α) := fun x y =>
  match x, y with
  | .ok a, .ok b =>
    if h : a = b then .isTrue (by rw [h]) else .isFalse (by simp [h])
  | .error a, .error b =>
    if h : a = b then .isTrue (by rw [h]) else .isFalse (by simp [h])
  | .ok _, .error _ => .isFalse (by simp)
  | .error _, .ok _ => .isFalse (by simp)

/-- Outcome of the `tokio::time::timeout(timeout, response_rx).await` wait in
`RequestQueue::submit`, plus the one failure mode that precedes the wait:
* `delivered r` — the worker sent `r` through the one-shot channel
  (`Ok(Ok(result))` arm);
* `cancelled` — the channel was dropped without a send (`Ok(Err(_))` arm);
* `timed_out` — the deadline elapsed first (`Err(_)` arm);
* `send_failed` — `request_tx.send(...)` itself failed (queue task gone),
  so the wait never starts. -/
inductive AwaitOutcome where
  | delivered (r : AppResult GenerateResponse)
  | cancelled
  | timed_out
  | send_failed
deriving DecidableEq

/-- One atomic operation on the queue's `pending_count` counter
(`fetch_add` / `fetch_sub` with argument 1). -/
inductive CounterOp where
  | inc
  | dec
deriving DecidableEq, Repr

/-- Observable effects of one `RequestQueue::submit` call. -/
structure SubmitTrace where
  /-- the request passed the full-queue admission check -/
  admitted : Bool
  /-- the request was placed on the `mpsc` queue -/
  enqueued : Bool
  /-- operations applied to `pending_count`, in program order -/
  counter_ops : List CounterOp
  /-- value of `pending_count` when `submit` returns, given value `pending`
  on entry -/
  pending_after : Nat
  result : AppResult GenerateResponse
deriving DecidableEq

/-- `RequestQueue::submit` (`src/queue/request_queue.rs`), as a function of
the `pending_count` value read on entry and of the outcome of the wait on
the one-shot response channel.  The queue-full check compares the loaded
counter against `max_queue_size` and returns `AppError::Internal("Request
queue is full")` before creating the response channel or touching the
queue; otherwise the counter is incremented, the request is enqueued, and
the counter is decremented exactly once in whichever arm of the `match` on
the awaited outcome runs. -/
def submit (cfg : QueueConfig) (pending : Nat) (outcome : AwaitOutcome) :
    SubmitTrace :=
  if cfg.max_queue_size ≤ pending then
    { admitted := false, enqueued := false, counter_ops := [],
      pending_after := pending,
      result := .error (.Internal "Request queue is full") }
  else
    match outcome with
    | .send_failed =>
      { admitted := true, enqueued := false, counter_ops := [.inc],
        pending_after := pending + 1,
        result := .error (.Internal "Failed to queue request") }
    | .delivered r =>
      { admitted := true, enqueued := true, counter_ops := [.inc, .dec],
        pending_after := pending + 1 - 1, result := r }
    | .cancelled =>
      { admitted := true, enqueued := true, counter_ops := [.inc, .dec],
        pending_after := pending + 1 - 1,
        result := .error (.Internal "Request processing was cancelled") }
    | .timed_out =>
      { admitted := true, enqueued := true, counter_ops := [.inc, .dec],
        pending_after := pending + 1 - 1,
        result := .error (.Timeout "Request timed out") }

/-- The load-balancer-visible face of a backend: the `ImageBackend` trait
methods `name()`, `weight()`, `is_enabled()` used by
`src/gateway/load_balancer.rs` and `src/gateway/router.rs`. -/
structure BackendInfo where
  name : String
  weight : Nat
  enabled : Bool
deriving DecidableEq, Repr

/-- Modelled from the spec: `BackendRegistry::get` — the registry source file
(`src/backend/registry.rs`) is declared in `src/backend/mod.rs` but not among
the provided sources; per spec section 4.2 the registry is a name-indexed
collection with unique names, so `get` is lookup by name. -/
def registry_get (reg : List BackendInfo) (name : String) : Option BackendInfo :=
  reg.find? (fun b => b.name == name)

/-- Modelled from the spec: `BackendRegistry::get_all` — returns the
registered backends (registry iteration order). -/
def registry_get_all (reg : List BackendInfo) : List BackendInfo := reg

/-- `HealthCheckManager::is_healthy` (`src/gateway/health_check.rs`): the
cached per-name view; unknown names are optimistically healthy. -/
def hm_is_healthy (hs : List (String × HealthStatus)) (name : String) : Bool :=
  ((hs.find? (fun p => p.1 == name)).map (fun p => p.2.healthy)).getD true

/-- Load balancing strategy, from `src/gateway/load_balancer.rs`
(`enum LoadBalancingStrategy`). -/
inductive LoadBalancingStrategy where
  | RoundRobin
  | WeightedRoundRobin
  | Random
  | LeastConnections
deriving DecidableEq, Repr

/-- State for the weighted round-robin algorithm, from
`src/gateway/load_balancer.rs` (`struct WeightedRoundRobinState`);
`current_weight` is an `i32` in the source and can go non-positive inside
the loop, hence `Int`. -/
structure WrrState where
  current_index : Nat
  current_weight : Int
deriving DecidableEq, Repr

/-- `weights.iter().fold(0, |acc, &w| gcd(acc, w))` from
`select_weighted_round_robin`.  The source `fn gcd(a: i32, b: i32)` is
Euclid's algorithm returning `|a|` when `b == 0`; on the `u32`-derived
weights it coincides with `Nat.gcd`. -/
def weights_gcd (ws : List Nat) : Nat := ws.foldl Nat.gcd 0

/-- `*weights.iter().max().unwrap_or(&1)` from `select_weighted_round_robin`. -/
def weights_max (ws : List Nat) : Nat := (ws.max?).getD 1

/-- The `loop` body of `select_weighted_round_robin`
(`src/gateway/load_balancer.rs` lines 155-168): advance the index, on wrap
decrement `current_weight` by the gcd (resetting to the maximum weight when
it falls to or below zero), and return the first index whose weight is at
least `current_weight`.  The Rust `loop` has no fuel; here it is given
explicit fuel, and every caller passes `ws.length * (weights_max ws + 2) + 1`,
which over-approximates the longest possible search (the weight register
reaches the maximum weight after at most `length * (max + 1)` advances and
the maximal-weight index is then accepted within one further sweep).  On
fuel exhaustion (unreachable for the non-empty weight lists the gateway
produces) the current index is returned. -/
def wrr_select_loop (ws : List Nat) (g maxw : Nat) :
    Nat → WrrState → WrrState × Nat
  | 0, st => (st, st.current_index)
  | fuel + 1, st =>
    let i := (st.current_index + 1) % ws.length
    let cw : Int :=
      if i = 0 then
        let c := st.current_weight - (g : Int)
        if c ≤ 0 then (maxw : Int) else c
      else st.current_weight
    if cw ≤ (ws.getD i 0 : Int) then (⟨i, cw⟩, i)
    else wrr_select_loop ws g maxw fuel ⟨i, cw⟩

/-- `LoadBalancer::select_weighted_round_robin`
(`src/gateway/load_balancer.rs`), acting on the weights of the candidate
list and returning the updated state together with the selected position.
A single-element list is returned directly without touching the state. -/
def select_weighted_round_robin (ws : List Nat) (st : WrrState) :
    WrrState × Nat :=
  if ws.length = 1 then (st, 0)
  else
    wrr_select_loop ws (weights_gcd ws) (weights_max ws)
      (ws.length * (weights_max ws + 2) + 1) st

/-- `k` consecutive weighted-round-robin selections from state `st`,
returning the final state and the list of selected positions in order. -/
def wrr_run (ws : List Nat) : Nat → WrrState → WrrState × List Nat
  | 0, st => (st, [])
  | k + 1, st =>
    let s1 := select_weighted_round_robin ws st
    let s2 := wrr_run ws k s1.1
    (s2.1, s1.2 :: s2.2)

/-- Mutable state of `LoadBalancer` (`src/gateway/load_balancer.rs`):
strategy, the atomic round-robin counter, and the weighted state. -/
structure LBState where
  strategy : LoadBalancingStrategy
  round_robin_index : Nat
  weighted_state : WrrState
deriving DecidableEq, Repr

/-- `LoadBalancer::new`: round-robin strategy, counter 0, weighted state
`(0, 0)`. -/
def LBState.new : LBState :=
  { strategy := .RoundRobin, round_robin_index := 0,
    weighted_state := ⟨0, 0⟩ }

/-- `LoadBalancer::get_healthy_backends` (`src/gateway/load_balancer.rs`
lines 117-130).  The source filters `registry.get_all()` on
`backend.is_enabled()` only; no health information is consulted (the
`LoadBalancer` struct holds no reference to the health manager), although
the function is documented as "Get all healthy backends". -/
def get_healthy_backends (reg : List BackendInfo) : List BackendInfo :=
  (registry_get_all reg).filter (fun b => b.enabled)

/-- `LoadBalancer::select_backend` (`src/gateway/load_balancer.rs`).  The
explicit-name path is `registry.get(name).ok_or(BackendNotFound)`.  The
policy path filters to the enabled candidates, errors with
`NoHealthyBackends("all")` when empty, and dispatches on the strategy;
`Random` derives its index from the caller-supplied nanosecond clock and
`LeastConnections` falls back to round-robin.  List indexing in the source
(`backends[index % backends.len()]`) is in bounds because the candidate
list is non-empty on those paths; `getD` with a dummy default mirrors it. -/
def select_backend (reg : List BackendInfo) (st : LBState)
    (backend_name : Option String) (now_nanos : Nat) :
    AppResult BackendInfo × LBState :=
  match backend_name with
  | some name =>
    (match registry_get reg name with
     | some b => .ok b
     | none => .error (.BackendNotFound name), st)
  | none =>
    let healthy_backends := get_healthy_backends reg
    if healthy_backends.isEmpty then
      (.error (.NoHealthyBackends "all"), st)
    else
      match st.strategy with
      | .RoundRobin =>
        (.ok (healthy_backends.getD
            (st.round_robin_index % healthy_backends.length) ⟨"", 0, false⟩),
         { st with round_robin_index := st.round_robin_index + 1 })
      | .WeightedRoundRobin =>
        let ws := healthy_backends.map (fun b => b.weight)
        let r := select_weighted_round_robin ws st.weighted_state
        (.ok (healthy_backends.getD r.2 ⟨"", 0, false⟩),
         { st with weighted_state := r.1 })
      | .Random =>
        (.ok (healthy_backends.getD
            (now_nanos % healthy_backends.length) ⟨"", 0, false⟩), st)
      | .LeastConnections =>
        (.ok (healthy_backends.getD
            (st.round_robin_index % healthy_backends.length) ⟨"", 0, false⟩),
         { st with round_robin_index := st.round_robin_index + 1 })

/-- What the queue worker does with the selection result in
`RequestQueue::process_requests` (`src/queue/request_queue.rs` lines
152-162): a successful selection leads to `backend.generate` being
dispatched, an error is sent to the caller's one-shot channel. -/
inductive WorkerAction where
  | dispatch (b : BackendInfo)
  | respond (e : AppError)
deriving DecidableEq, Repr

/-- The backend-selection step of the dispatching worker spawned by
`RequestQueue::process_requests`: it calls
`load_balancer.select_backend(queued.backend_name.as_deref())` (not the
`Router`) and dispatches on success. -/
def worker_select (reg : List BackendInfo) (st : LBState)
    (hint : Option String) (now_nanos : Nat) : WorkerAction :=
  match (select_backend reg st hint now_nanos).1 with
  | .ok b => .dispatch b
  | .error e => .respond e

/-- `Router::get_healthy_backend` (`src/gateway/router.rs` lines 96-115),
the priority-1 rule for an explicit backend name: registered, else
`BackendNotFound`; enabled, else `BackendNotFound` with a "disabled"
message (the source interpolates and quotes the name; quoting elided here);
healthy per the monitor's cached view, else `NoHealthyBackends`. -/
def router_get_healthy_backend (reg : List BackendInfo)
    (hs : List (String × HealthStatus)) (name : String) :
    AppResult BackendInfo :=
  match registry_get reg name with
  | none => .error (.BackendNotFound name)
  | some b =>
    if !b.enabled then
      .error (.BackendNotFound ("Backend " ++ name ++ " is disabled"))
    else if !hm_is_healthy hs name then
      .error (.NoHealthyBackends name)
    else
      .ok b

/-- A request waiting to be batched, from `src/queue/batcher.rs`
(`struct BatchedRequest`); the one-shot sender is modelled by an opaque
channel identifier. -/
structure BatchedRequest where
  request : GenerateRequest
  response_tx : Nat

/-- The fan-out loop of `Batcher::process_batch` (`src/queue/batcher.rs`
lines 123-126): each drained item produces one `backend.generate` call with
that item's own request, and that item's own channel receives the result.
Returns the generate calls issued and the (channel, result) deliveries, in
order.  `gen` is the backend's `generate` as a function of the request. -/
def fan_out (gen : GenerateRequest → AppResult GenerateResponse) :
    List BatchedRequest →
    List GenerateRequest × List (Nat × AppResult GenerateResponse)
  | [] => ([], [])
  | b :: rest =>
    let r := gen b.request
    let t := fan_out gen rest
    (b.request :: t.1, (b.response_tx, r) :: t.2)

/-- Mutable state of `Batcher` (`src/queue/batcher.rs`): the pending list
and the last-batch timestamp (a `Nat` tick). -/
structure BatcherState where
  pending_requests : List BatchedRequest
  last_batch_time : Nat

/-- `Batcher::process_batch` (`src/queue/batcher.rs`): an empty pending
list returns immediately; otherwise the pending list is drained atomically,
the last-batch timestamp is reset, and the batch is fanned out.  Returns
the new batcher state, the generate calls issued, and the per-channel
deliveries. -/
def process_batch (gen : GenerateRequest → AppResult GenerateResponse)
    (st : BatcherState) (now : Nat) :
    BatcherState × List GenerateRequest ×
      List (Nat × AppResult GenerateResponse) :=
  if st.pending_requests.isEmpty then (st, [], [])
  else
    let t := fan_out gen st.pending_requests
    ({ pending_requests := [], last_batch_time := now }, t.1, t.2)

/-- A dummy endpoint used as the (never-relevant) default of in-bounds
`getD` list indexing. -/
def dummy_endpoint : BackendEndpoint :=
  { url := "", healthy := true, last_check := none, consecutive_failures := 0 }

/-- `HttpBackend::mark_endpoint_healthy` (`src/backend/http_backend.rs`):
`endpoints.iter_mut().find(|e| e.url == url)` then `mark_healthy` — only the
first endpoint with the given url is updated. -/
def mark_healthy_by_url (es : List BackendEndpoint) (url : String)
    (now : Nat) : List BackendEndpoint :=
  match es with
  | [] => []
  | e :: rest =>
    if e.url == url then mark_healthy e now :: rest
    else e :: mark_healthy_by_url rest url now

/-- `HttpBackend::mark_endpoint_unhealthy` (`src/backend/http_backend.rs`):
first endpoint with the given url gets `mark_unhealthy`. -/
def mark_unhealthy_by_url (es : List BackendEndpoint) (url : String)
    (now : Nat) : List BackendEndpoint :=
  match es with
  | [] => []
  | e :: rest =>
    if e.url == url then mark_unhealthy e now :: rest
    else e :: mark_unhealthy_by_url rest url now

/-- The probe loop of `HttpBackend::health_check`
(`src/backend/http_backend.rs` lines 250-289): iterate over a clone of the
endpoint list; for each endpoint GET `endpoint.url ++ health_check_path`
(the boolean `probe` abstracts "the GET returned 2xx"); on success mark the
endpoint healthy in the live list and set the flag, on any other outcome
mark it unhealthy.  `todo` is the remaining clone, `live` the live list. -/
def http_health_check_loop (probe : String → Bool) (path : String)
    (now : Nat) :
    List BackendEndpoint → List BackendEndpoint → Bool →
    List BackendEndpoint × Bool
  | [], live, any_healthy => (live, any_healthy)
  | e :: rest, live, any_healthy =>
    if probe (e.url ++ path) then
      http_health_check_loop probe path now rest
        (mark_healthy_by_url live e.url now) true
    else
      http_health_check_loop probe path now rest
        (mark_unhealthy_by_url live e.url now) any_healthy

/-- `HttpBackend::health_check`: run the probe loop over a snapshot of the
endpoints, returning the updated endpoint list and `any_healthy`. -/
def http_health_check (probe : String → Bool) (path : String)
    (es : List BackendEndpoint) (now : Nat) : List BackendEndpoint × Bool :=
  http_health_check_loop probe path now es es false

/-- The probe loop of `GrpcBackend::health_check`
(`src/backend/grpc_backend.rs` lines 194-224) over endpoint indices.
`get_channel(i)` succeeds iff a channel is already cached at slot `i` or a
fresh dial succeeds (`dial i`); success marks endpoint `i` healthy and
leaves a cached channel in slot `i`, failure marks it unhealthy and clears
the slot.  The channel vector is created with one slot per endpoint
(`vec![None; endpoints.len()]`), so the two lists always have equal length;
the loop is embedded as simultaneous recursion on them, `i` being the
current index. -/
def grpc_health_check_loop (dial : Nat → Bool) (now : Nat) :
    Nat → List BackendEndpoint → List (Option Unit) →
    List BackendEndpoint × List (Option Unit) × Bool
  | _, [], chs => ([], chs, false)
  | _, es, [] => (es, [], false)
  | i, e :: es, c :: chs =>
    let ok := c.isSome || dial i
    let e2 := if ok then mark_healthy e now else mark_unhealthy e now
    let c2 : Option Unit := if ok then some () else none
    let t := grpc_health_check_loop dial now (i + 1) es chs
    (e2 :: t.1, c2 :: t.2.1, ok || t.2.2)

/-- `GrpcBackend::health_check`: probe every endpoint index starting at 0. -/
def grpc_health_check (dial : Nat → Bool) (es : List BackendEndpoint)
    (chs : List (Option Unit)) (now : Nat) :
    List BackendEndpoint × List (Option Unit) × Bool :=
  grpc_health_check_loop dial now 0 es chs

/- ===================== Theorems ===================== -/

/-- Claim C4 (counterexample): a `BackendEndpoint` driven to `healthy =
false` by three consecutive failures is flipped back to `healthy = true` by
a single `mark_healthy` call, contradicting the claim that the flag becomes
true only after `recovery_threshold = 2` consecutive successful probes. -/
theorem endpoint_single_success_flips_counterexample :
    (mark_unhealthy (mark_unhealthy (mark_unhealthy
      (BackendEndpoint.new "http://worker1") 1) 2) 3).healthy = false ∧
    (mark_healthy (mark_unhealthy (mark_unhealthy (mark_unhealthy
      (BackendEndpoint.new "http://worker1") 1) 2) 3) 4).healthy = true := by
  decide

/-- Claim C4 (amended): at the `BackendEndpoint` level a single successful
probe immediately sets `healthy = true` and resets `consecutive_failures`
to 0, with no recovery dwell; the `recovery_threshold = 2` dwell exists
only in the health monitor's per-name `HealthStatus`, not on endpoints. -/
theorem endpoint_mark_healthy_immediate (e : BackendEndpoint) (now : Nat) :
    (mark_healthy e now).healthy = true ∧
    (mark_healthy e now).consecutive_failures = 0 ∧
    (mark_healthy e now).url = e.url := by
  simp [mark_healthy]

/-- Claim C7 (counterexample): calling the force probe (`check_now`) twice
in succession with the same probe result does not leave the recorded
`HealthStatus` identical modulo `last_check`: from the initial status, one
successful forced probe records `consecutive_successes = 1`, two record 2. -/
theorem force_probe_idempotent_counterexample :
    ¬ same_modulo_last_check
        (check_now_update (check_now_update HealthStatus.default true 1) true 2)
        (check_now_update HealthStatus.default true 1) := by
  decide

/-- Claim C7 (amended): the `healthy` flag recorded by `check_now` is
idempotent — a second call with the same probe result leaves it unchanged —
but each call feeds the consecutive counters, so the success (resp. failure)
counter after two calls is one higher than after one call. -/
theorem force_probe_healthy_flag_idempotent (st : HealthStatus) (r : Bool)
    (t1 t2 : Nat) :
    (check_now_update (check_now_update st r t1) r t2).healthy =
      (check_now_update st r t1).healthy ∧
    (check_now_update (check_now_update st r t1) r t2).consecutive_successes =
      (if r then st.consecutive_successes + 2 else 0) ∧
    (check_now_update (check_now_update st r t1) r t2).consecutive_failures =
      (if r then 0 else st.consecutive_failures + 2) := by
  cases r <;> simp [check_now_update]

/-- Claim C2 (counterexample): with the default configuration and the
pending counter at `max_queue_size = 1000`, `submit` rejects the request
without enqueuing it, but the error it returns is of the spec-taxonomy kind
`Internal` (the code value is `AppError::Internal("Request queue is
full")`), not of kind `QueueFull`; `enum AppError` has no `QueueFull`
variant at all. -/
theorem submit_full_error_kind_counterexample :
    result_kind (submit QueueConfig.default 1000 .cancelled).result =
      some SpecErrorKind.Internal ∧
    some SpecErrorKind.Internal ≠ some SpecErrorKind.QueueFull ∧
    (submit QueueConfig.default 1000 .cancelled).enqueued = false := by
  decide

/-- Claim C2 (amended): whenever the pending counter read on entry is at
least `max_queue_size`, `submit` returns `AppError::Internal("Request queue
is full")` immediately: the request is not enqueued, the pending counter is
untouched, and the response wait never starts. -/
theorem submit_full_rejects_immediately (cfg : QueueConfig) (pending : Nat)
    (outcome : AwaitOutcome) (h : cfg.max_queue_size ≤ pending) :
    submit cfg pending outcome =
      { admitted := false, enqueued := false, counter_ops := [],
        pending_after := pending,
        result := .error (.Internal "Request queue is full") } := by
  simp [submit, h]

/-- Witness for the amended claim C2 at the default configuration with the
counter exactly at the cap. -/
theorem submit_full_rejects_immediately_witness :
    QueueConfig.default.max_queue_size ≤ 1000 ∧
    submit QueueConfig.default 1000 .timed_out =
      { admitted := false, enqueued := false, counter_ops := [],
        pending_after := 1000,
        result := .error (.Internal "Request queue is full") } :=
  ⟨by decide,
   submit_full_rejects_immediately QueueConfig.default 1000 .timed_out
     (by decide)⟩

/-- Claim C6: every admitted `submit` call increments the pending counter
once and decrements it exactly once by the time it returns, on each of the
three outcomes of the response wait (result delivered, processing
cancelled, timeout), so the counter ends where it started. -/
theorem submit_pending_counter_balanced (cfg : QueueConfig) (pending : Nat)
    (r : AppResult GenerateResponse) (h : pending < cfg.max_queue_size) :
    ((submit cfg pending (.delivered r)).counter_ops = [.inc, .dec] ∧
     (submit cfg pending (.delivered r)).pending_after = pending) ∧
    ((submit cfg pending .cancelled).counter_ops = [.inc, .dec] ∧
     (submit cfg pending .cancelled).pending_after = pending) ∧
    ((submit cfg pending .timed_out).counter_ops = [.inc, .dec] ∧
     (submit cfg pending .timed_out).pending_after = pending) := by
  have h2 : ¬ cfg.max_queue_size ≤ pending := not_le.mpr h
  simp [submit, h2]

/-- Witness for claim C6 on an empty queue with a delivered empty response. -/
theorem submit_pending_counter_balanced_witness :
    (0 : Nat) < QueueConfig.default.max_queue_size ∧
    (((submit QueueConfig.default 0
        (.delivered (.ok ⟨[], none⟩))).counter_ops = [.inc, .dec] ∧
      (submit QueueConfig.default 0
        (.delivered (.ok ⟨[], none⟩))).pending_after = 0) ∧
     ((submit QueueConfig.default 0 .cancelled).counter_ops = [.inc, .dec] ∧
      (submit QueueConfig.default 0 .cancelled).pending_after = 0) ∧
     ((submit QueueConfig.default 0 .timed_out).counter_ops = [.inc, .dec] ∧
      (submit QueueConfig.default 0 .timed_out).pending_after = 0)) :=
  ⟨by decide,
   submit_pending_counter_balanced QueueConfig.default 0 (.ok ⟨[], none⟩)
     (by decide)⟩

/-- Claim C5: in every health-monitor probe cycle, probe success zeroes
`consecutive_failures`, bumps `consecutive_successes`, and an unhealthy
status flips to healthy exactly when the bumped success counter reaches the
recovery threshold; probe failure zeroes `consecutive_successes`, bumps
`consecutive_failures`, and a healthy status flips to unhealthy exactly when
the bumped failure counter reaches the failure threshold. -/
theorem health_monitor_probe_update_rules (ft rt : Nat) (st : HealthStatus)
    (now : Nat) :
    ((probe_update ft rt st true now).consecutive_failures = 0 ∧
     (probe_update ft rt st true now).consecutive_successes =
       st.consecutive_successes + 1 ∧
     ((probe_update ft rt st true now).healthy = true ↔
       (st.healthy = true ∨ rt ≤ st.consecutive_successes + 1))) ∧
    ((probe_update ft rt st false now).consecutive_successes = 0 ∧
     (probe_update ft rt st false now).consecutive_failures =
       st.consecutive_failures + 1 ∧
     ((probe_update ft rt st false now).healthy = false ↔
       (st.healthy = false ∨ ft ≤ st.consecutive_failures + 1))) := by
  unfold probe_update
  by_cases hh : st.healthy <;>
    by_cases hs : rt ≤ st.consecutive_successes + 1 <;>
      by_cases hf : ft ≤ st.consecutive_failures + 1 <;>
        simp [hh, hs, hf]

/-- Claim C1 (the code at the failing input): with one registered, enabled
backend "alpha" that the health monitor's cached view records as unhealthy,
the candidate set built by `get_healthy_backends` still contains "alpha"
and `select_backend` with no explicit name returns it, instead of filtering
it out and failing with `NoHealthyBackends`.  The enabled-only filter never
consults the health monitor. -/
theorem select_backend_ignores_health_at_failing_input :
    hm_is_healthy
      [("alpha", { healthy := false, last_check := 5,
                   consecutive_failures := 3, consecutive_successes := 0 })]
      "alpha" = false ∧
    get_healthy_backends [⟨"alpha", 1, true⟩] = [⟨"alpha", 1, true⟩] ∧
    (select_backend [⟨"alpha", 1, true⟩] LBState.new none 0).1 =
      .ok ⟨"alpha", 1, true⟩ := by
  decide

/-- Claim C3 (counterexample): a dequeued request whose explicit hint names
a registered but disabled backend "bravo" is dispatched to that backend by
the worker (which asks the `LoadBalancer`, not the `Router`), while the
Router's priority-1 rule would have failed it with `BackendNotFound`; the
same divergence holds for a registered, enabled but unhealthy backend
"charlie", where the Router's rule would have failed with
`NoHealthyBackends`. -/
theorem worker_dispatches_to_disabled_or_unhealthy_counterexample :
    (⟨"bravo", 1, false⟩ : BackendInfo).enabled = false ∧
    worker_select [⟨"bravo", 1, false⟩] LBState.new (some "bravo") 0 =
      .dispatch ⟨"bravo", 1, false⟩ ∧
    router_get_healthy_backend [⟨"bravo", 1, false⟩] [] "bravo" =
      .error (.BackendNotFound "Backend bravo is disabled") ∧
    hm_is_healthy [("charlie", ⟨false, 7, 3, 0⟩)] "charlie" = false ∧
    worker_select [⟨"charlie", 1, true⟩] LBState.new (some "charlie") 0 =
      .dispatch ⟨"charlie", 1, true⟩ ∧
    router_get_healthy_backend [⟨"charlie", 1, true⟩]
      [("charlie", ⟨false, 7, 3, 0⟩)] "charlie" =
      .error (.NoHealthyBackends "charlie") := by
  decide

/-- Claim C3 (amended): the dispatching worker's selection for an explicit
backend-name hint consults only the registry: any registered backend is
dispatched to regardless of its enabled flag or the health monitor's view,
and only an unregistered name fails, with `BackendNotFound`. -/
theorem worker_explicit_hint_uses_registry_only (reg : List BackendInfo)
    (st : LBState) (name : String) (now_nanos : Nat) :
    worker_select reg st (some name) now_nanos =
      (match registry_get reg name with
       | some b => .dispatch b
       | none => .respond (.BackendNotFound name)) := by
  unfold worker_select select_backend
  cases h : registry_get reg name <;> simp [h]

theorem fan_out_calls (gen : GenerateRequest → AppResult GenerateResponse)
    (l : List BatchedRequest) :
    (fan_out gen l).1 = l.map (fun b => b.request) := by
  induction l with
  | nil => rfl
  | cons b rest ih => simp [fan_out, ih]

theorem fan_out_deliveries
    (gen : GenerateRequest → AppResult GenerateResponse)
    (l : List BatchedRequest) :
    (fan_out gen l).2 = l.map (fun b => (b.response_tx, gen b.request)) := by
  induction l with
  | nil => rfl
  | cons b rest ih => simp [fan_out, ih]

/-- Claim C9: every batch drained by `Batcher::process_batch` is fanned
out: the generate calls issued are exactly the batched items' own requests,
in order, one per item, and each item's one-shot channel receives exactly
the result of the call on that item's own request; the pending list is left
empty. -/
theorem process_batch_fans_out
    (gen : GenerateRequest → AppResult GenerateResponse)
    (st : BatcherState) (now : Nat) :
    (process_batch gen st now).2.1 =
      st.pending_requests.map (fun b => b.request) ∧
    (process_batch gen st now).2.2 =
      st.pending_requests.map (fun b => (b.response_tx, gen b.request)) ∧
    (process_batch gen st now).1.pending_requests = [] := by
  unfold process_batch
  cases h : st.pending_requests with
  | nil => simp [h]
  | cons b rest => simp [h, fan_out_calls, fan_out_deliveries]

theorem mark_healthy_url (e : BackendEndpoint) (now : Nat) :
    (mark_healthy e now).url = e.url := rfl

theorem mark_unhealthy_url (e : BackendEndpoint) (now : Nat) :
    (mark_unhealthy e now).url = e.url := by
  simp only [mark_unhealthy]
  split <;> rfl

theorem mark_healthy_by_url_append (l1 l2 : List BackendEndpoint)
    (url : String) (now : Nat) (h : ∀ e ∈ l1, e.url ≠ url) :
    mark_healthy_by_url (l1 ++ l2) url now =
      l1 ++ mark_healthy_by_url l2 url now := by
  induction l1 with
  | nil => simp
  | cons e rest ih =>
    have he : e.url ≠ url := h e (by simp)
    simp [mark_healthy_by_url, he, ih (fun f hf => h f (by simp [hf]))]

theorem mark_unhealthy_by_url_append (l1 l2 : List BackendEndpoint)
    (url : String) (now : Nat) (h : ∀ e ∈ l1, e.url ≠ url) :
    mark_unhealthy_by_url (l1 ++ l2) url now =
      l1 ++ mark_unhealthy_by_url l2 url now := by
  induction l1 with
  | nil => simp
  | cons e rest ih =>
    have he : e.url ≠ url := h e (by simp)
    simp [mark_unhealthy_by_url, he, ih (fun f hf => h f (by simp [hf]))]

theorem http_loop_spec (probe : String → Bool) (path : String) (now : Nat) :
    ∀ (todo done_acc : List BackendEndpoint) (any_healthy : Bool),
    (todo.map (fun e => e.url)).Nodup →
    (∀ e ∈ todo, ∀ d ∈ done_acc, d.url ≠ e.url) →
    http_health_check_loop probe path now todo (done_acc ++ todo)
        any_healthy =
      (done_acc ++ todo.map (fun e =>
         if probe (e.url ++ path) then mark_healthy e now
         else mark_unhealthy e now),
       any_healthy || todo.any (fun e => probe (e.url ++ path))) := by
  intro todo
  induction todo with
  | nil => intro done_acc any_healthy _ _; simp [http_health_check_loop]
  | cons e rest ih =>
    intro done_acc any_healthy hnd hdisj
    have hnd_rest : (rest.map (fun e => e.url)).Nodup := hnd.of_cons
    have hhead : e.url ∉ rest.map (fun f => f.url) := by
      have := hnd
      simp only [List.map_cons, List.nodup_cons] at this
      exact this.1
    have hdone : ∀ d ∈ done_acc, d.url ≠ e.url :=
      fun d hd => hdisj e (by simp) d hd
    cases hp : probe (e.url ++ path) with
    | true =>
      have hrw : mark_healthy_by_url (done_acc ++ e :: rest) e.url now =
          (done_acc ++ [mark_healthy e now]) ++ rest := by
        rw [mark_healthy_by_url_append _ _ _ _ hdone]
        simp [mark_healthy_by_url]
      have hdisj2 : ∀ f ∈ rest, ∀ d ∈ done_acc ++ [mark_healthy e now],
          d.url ≠ f.url := by
        intro f hf d hd
        rcases List.mem_append.mp hd with hd1 | hd2
        · exact hdisj f (by simp [hf]) d hd1
        · have : d = mark_healthy e now := by simpa using hd2
          subst this
          rw [mark_healthy_url]
          intro hcontra
          exact hhead (by
            rw [hcontra]
            exact List.mem_map.mpr ⟨f, hf, rfl⟩)
      have := ih (done_acc ++ [mark_healthy e now]) true hnd_rest hdisj2
      simp only [http_health_check_loop, hp, hrw, this]
      simp [hp]
    | false =>
      have hrw : mark_unhealthy_by_url (done_acc ++ e :: rest) e.url now =
          (done_acc ++ [mark_unhealthy e now]) ++ rest := by
        rw [mark_unhealthy_by_url_append _ _ _ _ hdone]
        simp [mark_unhealthy_by_url]
      have hdisj2 : ∀ f ∈ rest, ∀ d ∈ done_acc ++ [mark_unhealthy e now],
          d.url ≠ f.url := by
        intro f hf d hd
        rcases List.mem_append.mp hd with hd1 | hd2
        · exact hdisj f (by simp [hf]) d hd1
        · have : d = mark_unhealthy e now := by simpa using hd2
          subst this
          rw [mark_unhealthy_url]
          intro hcontra
          exact hhead (by
            rw [hcontra]
            exact List.mem_map.mpr ⟨f, hf, rfl⟩)
      have := ih (done_acc ++ [mark_unhealthy e now]) any_healthy hnd_rest
        hdisj2
      simp only [http_health_check_loop, hp, hrw, this]
      simp [hp]


theorem grpc_loop_spec (dial : Nat → Bool) (now : Nat) :
    ∀ (es : List BackendEndpoint) (chs : List (Option Unit)) (s : Nat),
    es.length = chs.length →
    grpc_health_check_loop dial now s es chs =
      ((List.range es.length).map (fun k =>
         if (chs.getD k none).isSome || dial (s + k) then
           mark_healthy (es.getD k dummy_endpoint) now
         else mark_unhealthy (es.getD k dummy_endpoint) now),
       (List.range es.length).map (fun k =>
         if (chs.getD k none).isSome || dial (s + k) then some () else none),
       (List.range es.length).any (fun k =>
         (chs.getD k none).isSome || dial (s + k))) := by
  intro es
  induction es with
  | nil =>
    intro chs s hlen
    have : chs = [] := List.length_eq_zero.mp (by simpa using hlen.symm)
    subst this
    simp [grpc_health_check_loop]
  | cons e rest ih =>
    intro chs s hlen
    cases chs with
    | nil => simp at hlen
    | cons c chs =>
      have hlen2 : rest.length = chs.length := by simpa using hlen
      have hih := ih chs (s + 1) hlen2
      have hshift : ∀ k : Nat, s + 1 + k = s + (k + 1) := fun k => by omega
      simp only [grpc_health_check_loop, hih, List.length_cons,
        List.range_succ_eq_map, List.map_cons, List.map_map, List.any_cons,
        List.any_map, Prod.mk.injEq, List.cons.injEq]
      refine ⟨⟨?_, ?_⟩, ⟨?_, ?_⟩, ?_⟩
      · cases c <;> simp
      · apply List.map_congr_left
        intro k _
        simp only [Function.comp_apply, List.getD_cons_succ,
          List.getD_cons_zero, hshift k]
      · cases c <;> simp
      · apply List.map_congr_left
        intro k _
        simp only [Function.comp_apply, List.getD_cons_succ, hshift k]
      · have h0 : (((c :: chs).getD 0 none).isSome || dial (s + 0)) =
            (c.isSome || dial s) := by simp
        rw [h0]
        congr 2
        funext k
        simp only [Function.comp_apply, List.getD_cons_succ, hshift k]

/-- Claim C10: `HttpBackend::health_check` probes every configured
endpoint's health path and immediately updates each endpoint's recorded
health from that single result — a 2xx response applies `mark_healthy`
(flag set, failure counter reset at once), any other outcome applies
`mark_unhealthy` (failure counter fed) — returning true iff at least one
endpoint responded 2xx; `GrpcBackend::health_check` behaves the same way
with channel establishment (cached channel or fresh dial) as the
per-endpoint success criterion. -/
theorem health_check_probes_every_endpoint
    (probe : String → Bool) (path : String) (hes : List BackendEndpoint)
    (hnow : Nat) (hnd : (hes.map (fun e => e.url)).Nodup)
    (dial : Nat → Bool) (ges : List BackendEndpoint)
    (chs : List (Option Unit)) (gnow : Nat)
    (hlen : ges.length = chs.length) :
    http_health_check probe path hes hnow =
      (hes.map (fun e =>
         if probe (e.url ++ path) then mark_healthy e hnow
         else mark_unhealthy e hnow),
       hes.any (fun e => probe (e.url ++ path))) ∧
    (grpc_health_check dial ges chs gnow).1 =
      (List.range ges.length).map (fun k =>
        if (chs.getD k none).isSome || dial k then
          mark_healthy (ges.getD k dummy_endpoint) gnow
        else mark_unhealthy (ges.getD k dummy_endpoint) gnow) ∧
    (grpc_health_check dial ges chs gnow).2.2 =
      (List.range ges.length).any (fun k =>
        (chs.getD k none).isSome || dial k) ∧
    (∀ (e : BackendEndpoint) (t : Nat),
      (mark_healthy e t).healthy = true ∧
      (mark_healthy e t).consecutive_failures = 0) := by
  have hhttp := http_loop_spec probe path hnow hes [] false hnd
    (by intro e _ d hd; simp at hd)
  have hgrpc := grpc_loop_spec dial gnow ges chs 0 hlen
  refine ⟨?_, ?_, ?_, ?_⟩
  · unfold http_health_check
    simpa using hhttp
  · unfold grpc_health_check
    rw [hgrpc]
    simp only [Nat.zero_add]
  · unfold grpc_health_check
    rw [hgrpc]
    simp only [Nat.zero_add]
  · intro e t
    exact ⟨rfl, rfl⟩

/-- Witness for claim C10: two HTTP endpoints of which only the first
answers 2xx, and two RPC endpoints of which the first has a cached channel
and no dial succeeds. -/
theorem health_check_probes_every_endpoint_witness :
    (([BackendEndpoint.new "http://a",
       BackendEndpoint.new "http://b"].map (fun e => e.url)).Nodup) ∧
    ([BackendEndpoint.new "g1", BackendEndpoint.new "g2"].length =
      ([some (), none] : List (Option Unit)).length) ∧
    (http_health_check (fun u => u == "http://a/health") "/health"
        [BackendEndpoint.new "http://a", BackendEndpoint.new "http://b"] 3 =
      ([BackendEndpoint.new "http://a",
        BackendEndpoint.new "http://b"].map (fun e =>
         if (fun (u : String) => u == "http://a/health") (e.url ++ "/health")
         then mark_healthy e 3 else mark_unhealthy e 3),
       [BackendEndpoint.new "http://a",
        BackendEndpoint.new "http://b"].any (fun e =>
         (fun (u : String) => u == "http://a/health") (e.url ++ "/health"))) ∧
     (grpc_health_check (fun _ => false)
        [BackendEndpoint.new "g1", BackendEndpoint.new "g2"]
        [some (), none] 4).1 =
      (List.range [BackendEndpoint.new "g1",
                   BackendEndpoint.new "g2"].length).map (fun k =>
        if (([some (), none] : List (Option Unit)).getD k none).isSome ||
            (fun (_ : Nat) => false) k then
          mark_healthy ([BackendEndpoint.new "g1",
            BackendEndpoint.new "g2"].getD k dummy_endpoint) 4
        else mark_unhealthy ([BackendEndpoint.new "g1",
          BackendEndpoint.new "g2"].getD k dummy_endpoint) 4) ∧
     (grpc_health_check (fun _ => false)
        [BackendEndpoint.new "g1", BackendEndpoint.new "g2"]
        [some (), none] 4).2.2 =
      (List.range [BackendEndpoint.new "g1",
                   BackendEndpoint.new "g2"].length).any (fun k =>
        (([some (), none] : List (Option Unit)).getD k none).isSome ||
        (fun (_ : Nat) => false) k) ∧
     (∀ (e : BackendEndpoint) (t : Nat),
       (mark_healthy e t).healthy = true ∧
       (mark_healthy e t).consecutive_failures = 0)) :=
  ⟨by decide, by decide,
   health_check_probes_every_endpoint
     (fun u => u == "http://a/health") "/health"
     [BackendEndpoint.new "http://a", BackendEndpoint.new "http://b"] 3
     (by decide) (fun _ => false)
     [BackendEndpoint.new "g1", BackendEndpoint.new "g2"]
     [some (), none] 4 (by decide)⟩

set_option maxRecDepth 100000 in
/-- Claim C8 (counterexample): under `select_weighted_round_robin` with the
enabled healthy backends carrying weights 5, 1, 1 (weight sum 7), over
`K = 702` consecutive selections (one hundred full weight cycles, so
`K ≫ Σw`) from the initial state, backend 0 is selected 500 times.  "Within
±1 of `K·w₀/Σw`" means `K·w₀ − Σw ≤ count·Σw ≤ K·w₀ + Σw` after clearing
the denominator; here `count·Σw = 3500` while `K·w₀ = 3510`, a deviation of
`10/7 > 1`, so the claimed ±1 bound fails (and keeps failing at every
`K ≡ 2 mod 7`, however large). -/
theorem wrr_weight_share_counterexample :
    ((wrr_run [5, 1, 1] 702 ⟨0, 0⟩).2.count 0) = 500 ∧
    ([5, 1, 1] : List Nat).sum = 7 ∧
    ¬ (702 * 5 ≤ ((wrr_run [5, 1, 1] 702 ⟨0, 0⟩).2.count 0) * 7 + 7 ∧
       ((wrr_run [5, 1, 1] 702 ⟨0, 0⟩).2.count 0) * 7 ≤ 702 * 5 + 7) := by
  decide

theorem wrr_run_add (ws : List Nat) (a b : Nat) (s : WrrState) :
    wrr_run ws (a + b) s =
      ((wrr_run ws b (wrr_run ws a s).1).1,
       (wrr_run ws a s).2 ++ (wrr_run ws b (wrr_run ws a s).1).2) := by
  induction a generalizing s with
  | zero => simp [wrr_run]
  | succ a ih =>
    have h : a + 1 + b = (a + b) + 1 := by omega
    rw [h]
    simp only [wrr_run, ih]
    simp

/-- Claim C8 (amended): the weighted-round-robin schedule distributes
selections in exact proportion to the weights over whole scheduling
cycles: if from state `s` the scheduler returns to `s` after `P`
selections, of which position `i` received `c` with `c·Σw = P·wᵢ`, then
over every `K = m·P` consecutive selections position `i` receives exactly
`m·c` selections, again with `(m·c)·Σw = K·wᵢ`; for window lengths that are
not whole cycles the deviation from `K·wᵢ/Σw` can exceed ±1 (see the
counterexample). -/
theorem wrr_exact_share_over_cycles (ws : List Nat) (s : WrrState)
    (i P c m : Nat)
    (hrec : (wrr_run ws P s).1 = s)
    (hcount : ((wrr_run ws P s).2).count i = c)
    (hprop : c * ws.sum = P * ws.getD i 0) :
    (wrr_run ws (m * P) s).1 = s ∧
    ((wrr_run ws (m * P) s).2).count i = m * c ∧
    (m * c) * ws.sum = (m * P) * ws.getD i 0 := by
  induction m with
  | zero => simp [wrr_run]
  | succ m ih =>
    have hmul : (m + 1) * P = m * P + P := by ring
    rw [hmul, wrr_run_add]
    refine ⟨?_, ?_, ?_⟩
    · show (wrr_run ws P (wrr_run ws (m * P) s).1).1 = s
      rw [ih.1, hrec]
    · show List.count i ((wrr_run ws (m * P) s).2 ++
        (wrr_run ws P (wrr_run ws (m * P) s).1).2) = (m + 1) * c
      rw [ih.1, List.count_append, ih.2.1, hcount]
      ring
    · calc (m + 1) * c * ws.sum = m * (c * ws.sum) + c * ws.sum := by ring
        _ = m * (P * ws.getD i 0) + P * ws.getD i 0 := by rw [hprop]
        _ = (m * P + P) * ws.getD i 0 := by ring

set_option maxRecDepth 100000 in
/-- Witness for the amended claim C8: weights (5, 1, 1), the cyclic state
`(0, 5)` with period 7 and per-cycle counts proportional to the weights,
taken over three full cycles. -/
theorem wrr_exact_share_over_cycles_witness :
    ((wrr_run [5, 1, 1] 7 ⟨0, 5⟩).1 = ⟨0, 5⟩ ∧
     ((wrr_run [5, 1, 1] 7 ⟨0, 5⟩).2).count 0 = 5 ∧
     5 * ([5, 1, 1] : List Nat).sum = 7 * ([5, 1, 1] : List Nat).getD 0 0) ∧
    ((wrr_run [5, 1, 1] (3 * 7) ⟨0, 5⟩).1 = ⟨0, 5⟩ ∧
     ((wrr_run [5, 1, 1] (3 * 7) ⟨0, 5⟩).2).count 0 = 3 * 5 ∧
     (3 * 5) * ([5, 1, 1] : List Nat).sum =
       (3 * 7) * ([5, 1, 1] : List Nat).getD 0 0) :=
  ⟨⟨by decide, by decide, by decide⟩,
   wrr_exact_share_over_cycles [5, 1, 1] ⟨0, 5⟩ 0 7 5 3
     (by decide) (by decide) (by decide)⟩
